import Mathlib

set_option maxHeartbeats 1000000

/-!
Verification of the ChessLock session-integrity monitor (src/main.js).

The environment probes, the violation evaluator, and the warning/termination
state machine of the Electron main process are embedded as executable Lean
definitions.  Shell-command outcomes are modelled by `CmdOut` (a rejected
promise or captured stdout), the mutable module-level session flags by the
record `AppState`, and the IPC events plus the two interval callbacks by the
`Event` type with the transition function `applyEvent`.
-/

namespace ChessLock

/-- Outcome of one shell command issued through `execAsync`: the promise either
rejected (`fail`) or resolved with the captured stdout text. -/
inductive CmdOut where
  | fail
  | ok (stdout : String)
deriving DecidableEq

/-- JavaScript `toLowerCase` on the ASCII command outputs, as a map over the
character list. -/
def jsLowerL (l : List Char) : List Char := l.map Char.toLower

/-- Whitespace stripped by JavaScript `trim` on the command outputs involved. -/
def isJsWs (c : Char) : Bool := c == ' ' || c == '\t' || c == '\n' || c == '\r'

/-- JavaScript `String.prototype.trim` over a character list. -/
def trimList (l : List Char) : List Char :=
  ((l.dropWhile isJsWs).reverse.dropWhile isJsWs).reverse

/-- Does the second list start with the first (the pattern)? -/
def startsWithPat : List Char → List Char → Bool
  | [], _ => true
  | _ :: _, [] => false
  | p :: ps, c :: cs => p == c && startsWithPat ps cs

/-- JavaScript `String.prototype.includes` over character lists: the pattern
occurs as a contiguous run of the first argument. -/
def containsPat : List Char → List Char → Bool
  | [], pat => startsWithPat pat []
  | c :: cs, pat => startsWithPat pat (c :: cs) || containsPat cs pat

/-- JavaScript `String.prototype.includes` on strings. -/
def jsIncludes (s pat : String) : Bool := containsPat s.data pat.data

/-- JavaScript `split` with separator a newline character. -/
def splitLines : List Char → List (List Char)
  | [] => [[]]
  | c :: cs =>
    if c == '\n' then [] :: splitLines cs
    else
      match splitLines cs with
      | [] => [[c]]
      | h :: t => (c :: h) :: t

/-- Result record of `checkZoomCamera` (src/main.js lines 24-70). -/
structure ZoomResult where
  zoomRunning : Bool
  cameraInUse : Bool
  screenSharing : Bool
deriving DecidableEq

/-- Result record of `checkBluetooth` (src/main.js lines 86-101). -/
structure BluetoothResult where
  bluetoothEnabled : Bool
deriving DecidableEq

/-- Result record of `checkUsbDevices` (src/main.js lines 160-166). -/
structure UsbResult where
  hasUsbDevices : Bool
  count : Nat
deriving DecidableEq

/-- The four command outcomes consumed by `checkZoomCamera`: the pgrep
pipeline, the ioreg camera-streaming query, the zoomshare/CptHost pgrep, and
the lsof window-server fallback. -/
structure ZoomEnv where
  psOutput : CmdOut
  ioregOutput : CmdOut
  shareOutput : CmdOut
  lsofOutput : CmdOut
deriving DecidableEq

/-- src/main.js lines 24-70.  The outer try/catch returns the all-false record
when the pgrep pipeline rejects; the inner try/catch blocks turn ioreg, pgrep
and lsof failures into `false` sub-flags.  (The source returns the not-running
record early; here the running test selects between the two results.) -/
def checkZoomCamera : ZoomEnv → ZoomResult
  | ⟨.fail, _, _, _⟩ => ⟨false, false, false⟩
  | ⟨.ok psOutput, ioregOutput, shareOutput, lsofOutput⟩ =>
    if (trimList psOutput.data).length > 0 then
      let cameraInUse : Bool :=
        match ioregOutput with
        | .fail => false
        | .ok o => decide ((trimList o.data).length > 0)
      let screenSharing : Bool :=
        match shareOutput with
        | .fail => false
        | .ok so =>
          if (trimList so.data).length > 0 then true
          else
            match lsofOutput with
            | .fail => false
            | .ok lo => decide ((trimList lo.data).length > 0)
      ⟨true, cameraInUse, screenSharing⟩
    else ⟨false, false, false⟩

/-- The `grep -iE "(State|Bluetooth Power):"` line test (case-insensitive). -/
def btLineMatches (l : List Char) : Bool :=
  containsPat (jsLowerL l) "state:".data || containsPat (jsLowerL l) "bluetooth power:".data

/-- Model of `system_profiler SPBluetoothDataType | grep -iE
"(State|Bluetooth Power):" | head -1`: the first matching line of the profiler
output with its trailing newline, or empty output when no line matches. -/
def btPipeline (raw : String) : List Char :=
  match (splitLines raw.data).find? btLineMatches with
  | none => []
  | some l => l ++ ['\n']

/-- src/main.js lines 86-101: classify the radio as on when the lowercased
pipeline output contains the substring colon-space-on; a rejected command is
caught and reported as off. -/
def checkBluetooth : CmdOut → BluetoothResult
  | .fail => ⟨false⟩
  | .ok raw => ⟨containsPat (jsLowerL (btPipeline raw)) ": on".data⟩

/-- The denylist of substrings marking a device entry as internal
(src/main.js lines 135-140). -/
def internalPatterns : List String :=
  ["hub", "internal", "built-in", "bluetooth", "apple",
   "host controller", "root hub", "usb bus", "usb 3", "usb 2", "usb3", "usb2",
   "bus", "touch bar", "ambient light sensor", "facetime", "headset",
   "card reader", "trackpad", "keyboard", "ibridge", "sensor", "controller"]

/-- The regex test on line 126, first part: exactly four leading spaces then an
ASCII letter. -/
def startsFourSpacesLetter : List Char → Bool
  | ' ' :: ' ' :: ' ' :: ' ' :: c :: _ => c.isAlpha
  | _ => false

/-- The regex test on line 126, second part: six leading spaces. -/
def startsSixSpaces : List Char → Bool
  | ' ' :: ' ' :: ' ' :: ' ' :: ' ' :: ' ' :: _ => true
  | _ => false

/-- A line opening a new top-level device entry (src/main.js line 126). -/
def isDeviceLine (l : List Char) : Bool := startsFourSpacesLetter l && !startsSixSpaces l

/-- Line 142-144: the trimmed, lowercased entry name contains none of the
denylisted substrings, so the entry counts as an external device. -/
def externalName (l : List Char) : Bool :=
  !(internalPatterns.any fun pat => containsPat (jsLowerL (trimList l)) pat.data)

/-- The for-loop of `getUsbDeviceCount` (lines 124-146): on each device line
the pending previous entry is counted if external, then the external flag is
recomputed for the new entry; the final pending entry is counted after the
loop (lines 149-151). -/
def usbLoop : List (List Char) → Nat → Bool → Nat
  | [], count, isExt => if isExt then count + 1 else count
  | line :: rest, count, isExt =>
    if isDeviceLine line then
      usbLoop rest (if isExt then count + 1 else count) (externalName line)
    else
      usbLoop rest count isExt

/-- src/main.js lines 104-157: parse the `system_profiler SPUSBDataType`
output; empty, all-whitespace or no-device output yields 0, and a rejected
command is caught and yields 0. -/
def getUsbDeviceCount : CmdOut → Nat
  | .fail => 0
  | .ok stdout =>
    if stdout.data = [] ∨ trimList stdout.data = [] ∨ jsIncludes stdout "No USB" = true then 0
    else usbLoop (splitLines stdout.data) 0 false

/-- The wrapping performed by `checkUsbDevices` (lines 160-166) on the
underlying count. -/
def usbResultOfCount (count : Nat) : UsbResult := ⟨decide (count > 0), count⟩

/-- src/main.js lines 160-166. -/
def checkUsbDevices (env : CmdOut) : UsbResult := usbResultOfCount (getUsbDeviceCount env)

/-- Document currently loaded in the main window: start.html, the game URL, or
terminated.html. -/
inductive Screen where
  | start
  | game
  | terminated
deriving DecidableEq

/-- The aspects of the main BrowserWindow mutated by the session handlers. -/
structure MainWindow where
  screen : Screen
  closable : Bool
  minimizable : Bool
  maximizable : Bool
  movable : Bool
  resizable : Bool
  simpleFullScreen : Bool
  fullScreen : Bool
  kiosk : Bool
  aotLevel : Option String
deriving DecidableEq

/-- The module-level mutable session state of src/main.js (lines 72-80): the
open warning surfaces (the warningWindow variable; a list so that the absence
of a second simultaneous surface is a provable fact rather than a typing
artifact), the two interval handles as activity flags, and the three session
flags. -/
structure AppState where
  mainWindow : MainWindow
  warningWindows : List String
  monitoringInterval : Bool
  resolveCheckInterval : Bool
  isShowingWarning : Bool
  sessionTerminated : Bool
  proctorStarted : Bool
deriving DecidableEq

/-- Process start: `createWindow` loads start.html into a window created with
the options of lines 169-184; no interval runs and every flag is false. -/
def initState : AppState :=
  { mainWindow := { screen := .start, closable := true, minimizable := false,
                    maximizable := false, movable := true, resizable := true,
                    simpleFullScreen := false, fullScreen := false, kiosk := false,
                    aotLevel := none },
    warningWindows := [], monitoringInterval := false, resolveCheckInterval := false,
    isShowingWarning := false, sessionTerminated := false, proctorStarted := false }

/-- The four violation booleans derived from one round of probe results. -/
structure Verdict where
  hasDisplayIssue : Bool
  hasCameraIssue : Bool
  hasBluetoothIssue : Bool
  hasUsbIssue : Bool
deriving DecidableEq

/-- Lines 409-412 (monitor tick). -/
def monitorVerdict (displayLen : Nat) (zoomResult : ZoomResult)
    (bluetoothResult : BluetoothResult) (usbResult : UsbResult) : Verdict :=
  ⟨decide (displayLen > 1), !zoomResult.zoomRunning || !zoomResult.cameraInUse,
   bluetoothResult.bluetoothEnabled, usbResult.hasUsbDevices⟩

/-- Lines 493-496 (resolve tick). -/
def resolveVerdict (displayLen : Nat) (zoomResult : ZoomResult)
    (bluetoothResult : BluetoothResult) (usbResult : UsbResult) : Verdict :=
  ⟨decide (displayLen > 1), !zoomResult.zoomRunning || !zoomResult.cameraInUse,
   bluetoothResult.bluetoothEnabled, usbResult.hasUsbDevices⟩

/-- Lines 317-320 (warning-timer-expired handler). -/
def expiredVerdict (displayLen : Nat) (zoomResult : ZoomResult)
    (bluetoothResult : BluetoothResult) (usbResult : UsbResult) : Verdict :=
  ⟨decide (displayLen > 1), !zoomResult.zoomRunning || !zoomResult.cameraInUse,
   bluetoothResult.bluetoothEnabled, usbResult.hasUsbDevices⟩

/-- The disjunction tested at lines 322, 414 and 498. -/
def anyIssue (v : Verdict) : Bool :=
  v.hasDisplayIssue || v.hasCameraIssue || v.hasBluetoothIssue || v.hasUsbIssue

/-- The issueMessage if-chain of lines 415-426. -/
def issueMessageOf (displayLen : Nat) (z : ZoomResult) (b : BluetoothResult)
    (u : UsbResult) : String :=
  let v := monitorVerdict displayLen z b u
  if v.hasDisplayIssue then "External display detected"
  else if !z.zoomRunning then "Zoom is not running"
  else if !z.cameraInUse then "Camera has been turned off"
  else if v.hasBluetoothIssue then "Bluetooth must be disabled"
  else if v.hasUsbIssue then "Disconnect all USB devices"
  else ""

/-- src/main.js lines 434-503 as a state transformation: the two early-return
guards (lines 436-437), then the flag set, the warning window creation, and
the fresh resolve interval (clearing any stale one first, lines 443-446). -/
def showWarningWindow (issue : String) (s : AppState) : AppState :=
  if s.isShowingWarning || s.sessionTerminated then s
  else if s.warningWindows ≠ [] then s
  else { s with isShowingWarning := true, resolveCheckInterval := true,
                warningWindows := [issue] }

/-- src/main.js lines 505-522. -/
def closeWarningWindow (s : AppState) : AppState :=
  { s with resolveCheckInterval := false, warningWindows := [],
           isShowingWarning := false }

/-- src/main.js lines 524-559. -/
def terminateChessSession (s : AppState) : AppState :=
  let mw := { s.mainWindow with kiosk := false, simpleFullScreen := false, fullScreen := false, aotLevel := some "floating", screen := Screen.terminated }
  { s with sessionTerminated := true, isShowingWarning := false,
           monitoringInterval := false, resolveCheckInterval := false,
           warningWindows := [], mainWindow := mw }

/-- The start-proctor handler, src/main.js lines 272-305 (its deferred
setTimeout body of lines 290-298 included): lock the window, enter simple
full screen, start active monitoring, load the game URL. -/
def startProctor (s : AppState) : AppState :=
  if s.proctorStarted then s
  else
    let mw := { s.mainWindow with closable := false, minimizable := false, maximizable := false, movable := false, resizable := false, simpleFullScreen := true, aotLevel := some "screen-saver", kiosk := false, screen := Screen.game }
    { s with proctorStarted := true, monitoringInterval := true, mainWindow := mw }

/-- Environment snapshot consumed by one tick: the display list length
reported by `screen.getAllDisplays()` and the command outcomes of the three
asynchronous probes. -/
structure ProbeEnv where
  displayLen : Nat
  zoomEnv : ZoomEnv
  btEnv : CmdOut
  usbEnv : CmdOut
deriving DecidableEq

/-- Lines 409-430: evaluate the four booleans and raise a warning on any
violation. -/
def monitorTickEval (displayLen : Nat) (z : ZoomResult) (b : BluetoothResult)
    (u : UsbResult) (s : AppState) : AppState :=
  if anyIssue (monitorVerdict displayLen z b u) then
    showWarningWindow (issueMessageOf displayLen z b u) s
  else s

/-- One firing of the 2-second monitoring callback, lines 400-431.  The second
component counts the probe invocations the firing performed: the line-401
guard returns before any probe runs. -/
def monitorTickRun (e : ProbeEnv) (s : AppState) : AppState × Nat :=
  if s.sessionTerminated || s.isShowingWarning then (s, 0)
  else (monitorTickEval e.displayLen (checkZoomCamera e.zoomEnv)
          (checkBluetooth e.btEnv) (checkUsbDevices e.usbEnv) s, 4)

/-- One firing of the 1-second resolve callback, lines 480-502: the guard of
line 481 clears the interval and returns; otherwise the probes run and a clean
verdict closes the warning. -/
def resolveTickRun (e : ProbeEnv) (s : AppState) : AppState × Nat :=
  if !s.isShowingWarning || s.sessionTerminated then
    ({ s with resolveCheckInterval := false }, 0)
  else if anyIssue (resolveVerdict e.displayLen (checkZoomCamera e.zoomEnv)
          (checkBluetooth e.btEnv) (checkUsbDevices e.usbEnv)) = false then
    (closeWarningWindow s, 4)
  else (s, 4)

/-- The verdict recomputed by the warning-timer-expired handler
(lines 312-320). -/
def expiredVerdictOfEnv (e : ProbeEnv) : Verdict :=
  expiredVerdict e.displayLen (checkZoomCamera e.zoomEnv)
    (checkBluetooth e.btEnv) (checkUsbDevices e.usbEnv)

/-- The warning-timer-expired handler, lines 308-329: terminate on a persisting
violation, otherwise close the warning (no further guard exists here). -/
def warningTimerExpiredRun (e : ProbeEnv) (s : AppState) : AppState :=
  if anyIssue (expiredVerdictOfEnv e) then terminateChessSession s
  else closeWarningWindow s

/-- The events driving the session state: the start-proctor IPC message, a
firing of either interval callback carrying its probe environment, the
warning-timer-expired IPC message, and an invocation of `showWarningWindow`. -/
inductive Event where
  | startRequested
  | monitorTick (e : ProbeEnv)
  | resolveTick (e : ProbeEnv)
  | warningTimerExpired (e : ProbeEnv)
  | showWarning (issue : String)
deriving DecidableEq

/-- Transition function: dispatch of each event to its handler in src/main.js. -/
def applyEvent : Event → AppState → AppState
  | .startRequested, s => startProctor s
  | .monitorTick e, s => (monitorTickRun e s).1
  | .resolveTick e, s => (resolveTickRun e s).1
  | .warningTimerExpired e, s => warningTimerExpiredRun e s
  | .showWarning issue, s => showWarningWindow issue s

/-- Apply a sequence of events in order. -/
def runEvents (evs : List Event) (s : AppState) : AppState :=
  evs.foldl (fun st ev => applyEvent ev st) s

/-- When an event can physically fire.  An interval callback fires only while
its interval handle is set (`setInterval`/`clearInterval`, lines 400, 443,
480, 507, 531, 537); `showWarningWindow` has its only call site inside the
monitoring callback (line 429).  Modelled from the spec: the
warning-timer-expired message is sent by the countdown of the warning surface
(warning.html, which is not under src/), so it fires only while a warning
window is open (spec header 4.3 Warning rows and header 6 event list). -/
def canFire : Event → AppState → Prop
  | .startRequested, _ => True
  | .monitorTick _, s => s.monitoringInterval = true
  | .resolveTick _, s => s.resolveCheckInterval = true
  | .warningTimerExpired _, s => s.warningWindows ≠ []
  | .showWarning _, s => s.monitoringInterval = true

/-- States reachable from process start through fireable events. -/
inductive Reachable : AppState → Prop where
  | init : Reachable initState
  | next {s : AppState} {ev : Event} : Reachable s → canFire ev s →
      Reachable (applyEvent ev s)

/-- Violation kinds in the priority order of the spec (header 4.2). -/
inductive ViolationKind where
  | MultiDisplay
  | ConferenceAppNotRunning
  | CameraInactive
  | RadioEnabled
  | PeripheralAttached
deriving DecidableEq

/-- The headline message the code emits for each violation kind. -/
def kindMessage : ViolationKind → String
  | .MultiDisplay => "External display detected"
  | .ConferenceAppNotRunning => "Zoom is not running"
  | .CameraInactive => "Camera has been turned off"
  | .RadioEnabled => "Bluetooth must be disabled"
  | .PeripheralAttached => "Disconnect all USB devices"

/-- The first true violation condition in the fixed priority order of the
spec (header 4.2): MultiDisplay, then ConferenceAppNotRunning, then
CameraInactive, then RadioEnabled, then PeripheralAttached. -/
def specHeadline (displayCount : Nat) (z : ZoomResult) (b : BluetoothResult)
    (count : Nat) : Option ViolationKind :=
  if displayCount > 1 then some .MultiDisplay
  else if z.zoomRunning = false then some .ConferenceAppNotRunning
  else if z.zoomRunning = true ∧ z.cameraInUse = false then some .CameraInactive
  else if b.bluetoothEnabled = true then some .RadioEnabled
  else if count > 0 then some .PeripheralAttached
  else none

/-- The text after the first colon of a line: the value of a `Key: value`
line. -/
def afterColon : List Char → List Char
  | [] => []
  | c :: cs => if c == ':' then cs else afterColon cs

/-- The radio classification described by the spec sentence of header 4.1:
enabled exactly when the value of the matched State:/Power: line textually
contains "on" case-insensitively. -/
def specRadioValueOn (raw : String) : Bool :=
  match (splitLines raw.data).find? btLineMatches with
  | none => false
  | some l => containsPat (jsLowerL (afterColon l)) "on".data

/-- The four probe subsystems queried by a tick. -/
inductive ProbeKind where
  | display
  | zoom
  | bluetooth
  | usb
deriving DecidableEq

/-- One step in the execution of a tick body: a probe call being issued, its
awaited completion, or the evaluation of the gathered results. -/
inductive TickStep where
  | invoke (k : ProbeKind)
  | awaitDone (k : ProbeKind)
  | evaluate
deriving DecidableEq

/-- Execution order of the monitor-tick body, lines 404-414: the synchronous
display enumeration, then three sequential awaited calls, then evaluation. -/
def monitorTickTrace : List TickStep :=
  [.invoke .display, .awaitDone .display, .invoke .zoom, .awaitDone .zoom,
   .invoke .bluetooth, .awaitDone .bluetooth, .invoke .usb, .awaitDone .usb,
   .evaluate]

/-- Execution order of the resolve-tick body, lines 488-498. -/
def resolveTickTrace : List TickStep :=
  [.invoke .display, .awaitDone .display, .invoke .zoom, .awaitDone .zoom,
   .invoke .bluetooth, .awaitDone .bluetooth, .invoke .usb, .awaitDone .usb,
   .evaluate]

/-- Execution order of the warning-timer-expired re-check, lines 312-322. -/
def expiredRecheckTrace : List TickStep :=
  [.invoke .display, .awaitDone .display, .invoke .zoom, .awaitDone .zoom,
   .invoke .bluetooth, .awaitDone .bluetooth, .invoke .usb, .awaitDone .usb,
   .evaluate]

/-- Step `a` occurs strictly before step `b` in the trace. -/
def stepsBefore (tr : List TickStep) (a b : TickStep) : Bool :=
  match tr.findIdx? (fun x => x == a), tr.findIdx? (fun x => x == b) with
  | some i, some j => decide (i < j)
  | _, _ => false

/-- Concurrent issue as the claim states it: all four probes are issued before
any one of them is awaited. -/
def allInvokedBeforeAwaits (tr : List TickStep) : Bool :=
  [ProbeKind.display, .zoom, .bluetooth, .usb].all fun k =>
    [ProbeKind.display, .zoom, .bluetooth, .usb].all fun j =>
      stepsBefore tr (.invoke k) (.awaitDone j)

/-- Strictly sequential probing: each probe completes before the next is
issued, and evaluation happens only after all four have completed. -/
def sequentialProbes (tr : List TickStep) : Bool :=
  stepsBefore tr (.awaitDone .display) (.invoke .zoom) &&
  stepsBefore tr (.awaitDone .zoom) (.invoke .bluetooth) &&
  stepsBefore tr (.awaitDone .bluetooth) (.invoke .usb) &&
  ([ProbeKind.display, .zoom, .bluetooth, .usb].all fun k =>
    stepsBefore tr (.awaitDone k) .evaluate)

/-- The shape a state has after `terminateChessSession` ran on a live session:
terminated, warning surface gone, both intervals cleared, window dropped out
of kiosk and full screen, terminated screen loaded. -/
def TerminatedLocked (s : AppState) : Prop :=
  s.sessionTerminated = true ∧ s.proctorStarted = true ∧
  s.isShowingWarning = false ∧ s.monitoringInterval = false ∧
  s.resolveCheckInterval = false ∧ s.warningWindows = [] ∧
  s.mainWindow.kiosk = false ∧ s.mainWindow.simpleFullScreen = false ∧
  s.mainWindow.fullScreen = false ∧ s.mainWindow.aotLevel = some "floating" ∧
  s.mainWindow.screen = Screen.terminated

/-- Inductive invariant of the reachable states: monitoring and warning
surfaces exist only after the session started, a terminated session is fully
locked down, and at most one warning surface is ever open. -/
def Inv (s : AppState) : Prop :=
  (s.monitoringInterval = true → s.proctorStarted = true) ∧
  (s.warningWindows ≠ [] → s.proctorStarted = true) ∧
  (s.sessionTerminated = true → TerminatedLocked s) ∧
  s.warningWindows.length ≤ 1

/-- A profiler dump with one internal entry (Apple Internal Keyboard) and one
external entry (SanDisk USB Drive), the external one last and unterminated. -/
def usbSample : String :=
  "USB:\n\n    Apple Internal Keyboard:\n\n      Product ID: 0x027e\n\n    SanDisk USB Drive:\n\n      Product ID: 0x5583\n"

/-- A probe environment with a violation: Zoom is not running (empty pgrep
output), everything else clean. -/
def envBad : ProbeEnv :=
  ⟨1, ⟨CmdOut.ok "", CmdOut.ok "", CmdOut.ok "", CmdOut.ok ""⟩, CmdOut.ok "", CmdOut.ok ""⟩

/-- A probe environment with no violation: one display, Zoom running with the
camera streaming, radio line reporting Off, no USB devices. -/
def envGood : ProbeEnv :=
  ⟨1, ⟨CmdOut.ok "123", CmdOut.ok "yes", CmdOut.ok "", CmdOut.ok ""⟩, CmdOut.ok "State: Off", CmdOut.ok ""⟩

/-- The state right after the start-proctor event. -/
def startedState : AppState := applyEvent Event.startRequested initState

/-- The state after a monitor tick observed the envBad violation: a warning is
showing. -/
def warnState : AppState := applyEvent (Event.monitorTick envBad) startedState

/-- The state after the warning timer expired with the violation persisting:
the session is terminated. -/
def termState : AppState := applyEvent (Event.warningTimerExpired envBad) warnState

/-- The device-entry loop equals a filter-and-count over the lines: the pending
external flag of the accumulator is flushed exactly once, at the next device
line or (for the last entry) after the loop. -/
theorem usbLoop_count_eq (lines : List (List Char)) : ∀ (count : Nat) (isExt : Bool),
    usbLoop lines count isExt =
      count + (if isExt then 1 else 0) +
        ((lines.filter isDeviceLine).countP externalName) := by
  induction lines with
  | nil => intro c e; cases e <;> simp [usbLoop]
  | cons line rest ih =>
    intro c e
    by_cases hd : isDeviceLine line = true
    · cases e <;> cases hx : externalName line <;>
        simp [usbLoop, hd, ih, List.filter_cons, List.countP_cons, hx] <;> omega
    · simp [usbLoop, hd, ih, List.filter_cons]

/-- Matching the pattern colon-space-o-n at the start cannot involve a final
appended newline, because no proper prefix of the pattern is followed by a
newline successfully. -/
theorem startsWithPat_colonOn_snoc (xs : List Char) :
    startsWithPat [':', ' ', 'o', 'n'] (xs ++ ['\n']) =
      startsWithPat [':', ' ', 'o', 'n'] xs := by
  rcases xs with _ | ⟨a, _ | ⟨b, _ | ⟨c, _ | ⟨d, rest⟩⟩⟩⟩ <;> simp [startsWithPat]

/-- A trailing newline does not affect the colon-space-on substring test. -/
theorem containsPat_snoc_nl (xs : List Char) :
    containsPat (xs ++ ['\n']) [':', ' ', 'o', 'n'] =
      containsPat xs [':', ' ', 'o', 'n'] := by
  induction xs with
  | nil => decide
  | cons c cs ih =>
    show (startsWithPat [':', ' ', 'o', 'n'] (c :: (cs ++ ['\n'])) ||
        containsPat (cs ++ ['\n']) [':', ' ', 'o', 'n']) =
      (startsWithPat [':', ' ', 'o', 'n'] (c :: cs) ||
        containsPat cs [':', ' ', 'o', 'n'])
    rw [← List.cons_append, startsWithPat_colonOn_snoc (c :: cs), ih]

/-- C5: every probe converts command failure into its typed negative result
instead of propagating it: a failed pgrep pipeline yields the all-false Zoom
record, a failed ioreg lookup yields cameraInUse false, a failed
sharing-process lookup (or a failed lsof fallback behind an empty
sharing-process answer) yields screenSharing false, a failed profiler query
yields bluetoothEnabled false, and a failed device inventory yields count 0;
each probe is a total function into its result record. -/
theorem C5_probe_error_containment :
    (∀ i sh lo : CmdOut,
        checkZoomCamera ⟨CmdOut.fail, i, sh, lo⟩ = ⟨false, false, false⟩) ∧
    (∀ ps sh lo : CmdOut,
        (checkZoomCamera ⟨ps, CmdOut.fail, sh, lo⟩).cameraInUse = false) ∧
    (∀ ps i lo : CmdOut,
        (checkZoomCamera ⟨ps, i, CmdOut.fail, lo⟩).screenSharing = false) ∧
    (∀ ps i : CmdOut,
        (checkZoomCamera ⟨ps, i, CmdOut.ok "", CmdOut.fail⟩).screenSharing = false) ∧
    checkBluetooth CmdOut.fail = ⟨false⟩ ∧
    getUsbDeviceCount CmdOut.fail = 0 := by
  refine ⟨fun i sh lo => rfl, fun ps sh lo => ?_, fun ps i lo => ?_, fun ps i => ?_, rfl, rfl⟩
  · cases ps with
    | fail => rfl
    | ok str => simp only [checkZoomCamera]; split <;> rfl
  · cases ps with
    | fail => rfl
    | ok str => simp only [checkZoomCamera]; split <;> rfl
  · cases ps with
    | fail => rfl
    | ok str => simp only [checkZoomCamera]; split <;> rfl

/-- C6: outside the empty and no-device bail-outs, `getUsbDeviceCount` returns
exactly the number of top-level device lines whose trimmed lower-cased name
contains no denylisted substring (the final, unterminated entry included,
through the filter-count equality); empty or no-device output yields 0; and on
the Apple Internal Keyboard plus SanDisk USB Drive sample the count is 1. -/
theorem C6_usb_device_count (stdout : String) :
    (¬(stdout.data = [] ∨ trimList stdout.data = [] ∨ jsIncludes stdout "No USB" = true) →
        getUsbDeviceCount (CmdOut.ok stdout) =
          ((splitLines stdout.data).filter isDeviceLine).countP externalName) ∧
    (trimList stdout.data = [] ∨ jsIncludes stdout "No USB" = true →
        getUsbDeviceCount (CmdOut.ok stdout) = 0) ∧
    getUsbDeviceCount (CmdOut.ok usbSample) = 1 := by
  refine ⟨fun h => ?_, fun h => ?_, by decide⟩
  · simp only [getUsbDeviceCount]
    rw [if_neg h]
    simpa using usbLoop_count_eq (splitLines stdout.data) 0 false
  · simp only [getUsbDeviceCount]
    rw [if_pos (Or.inr h)]

/-- Witness for C6 at concrete outputs: the sample dump is counted through the
filter-count characterization, and a whitespace-only dump yields 0. -/
theorem C6_usb_device_count_witness :
    getUsbDeviceCount (CmdOut.ok usbSample) =
      ((splitLines usbSample.data).filter isDeviceLine).countP externalName ∧
    getUsbDeviceCount (CmdOut.ok " ") = 0 :=
  ⟨(C6_usb_device_count usbSample).1 (by decide), (C6_usb_device_count " ").2.1 (by decide)⟩

/-- C7 counterexample: for the profiler line `State: Functional` the value of
the matched State: line textually contains "on" (inside "Functional"), yet
`checkBluetooth` classifies the radio as off, because the code tests for the
substring colon-space-on rather than "on" anywhere in the value. -/
theorem C7_radio_on_counterexample :
    checkBluetooth (CmdOut.ok "State: Functional") = ⟨false⟩ ∧
    specRadioValueOn "State: Functional" = true := by
  constructor <;> decide

/-- C7 amended: `checkBluetooth` reports enabled exactly when the first line
of the profiler output matching State:/Bluetooth Power: (case-insensitively)
contains the substring colon-space-on, lower-cased — not whenever the line
value merely contains "on"; command failure reports off. -/
theorem C7_radio_on_amended (raw : String) :
    (checkBluetooth (CmdOut.ok raw)).bluetoothEnabled =
      (match (splitLines raw.data).find? btLineMatches with
       | none => false
       | some l => containsPat (jsLowerL l) ": on".data) ∧
    (checkBluetooth CmdOut.fail).bluetoothEnabled = false := by
  refine ⟨?_, rfl⟩
  show containsPat (jsLowerL (btPipeline raw)) ": on".data =
    (match (splitLines raw.data).find? btLineMatches with
     | none => false
     | some l => containsPat (jsLowerL l) ": on".data)
  unfold btPipeline
  cases hf : (splitLines raw.data).find? btLineMatches with
  | none => decide
  | some l =>
    show containsPat (jsLowerL (l ++ ['\n'])) ": on".data =
      containsPat (jsLowerL l) ": on".data
    have hmap : jsLowerL (l ++ ['\n']) = jsLowerL l ++ ['\n'] := by
      unfold jsLowerL; rw [List.map_append]; rfl
    rw [hmap]
    exact containsPat_snoc_nl (jsLowerL l)

/-- C2: on every probe-result combination the monitor tick raises a warning
exactly when some violation condition holds, and the headline it chooses is
the message of the first true condition in the fixed priority order
MultiDisplay, ConferenceAppNotRunning, CameraInactive, RadioEnabled,
PeripheralAttached; with no violation the tick leaves the state unchanged. -/
theorem C2_headline_priority (d count : Nat) (z : ZoomResult) (b : BluetoothResult)
    (s : AppState) :
    ((if anyIssue (monitorVerdict d z b (usbResultOfCount count)) = true
        then some (issueMessageOf d z b (usbResultOfCount count)) else none)
      = Option.map kindMessage (specHeadline d z b count)) ∧
    (anyIssue (monitorVerdict d z b (usbResultOfCount count)) = false →
      monitorTickEval d z b (usbResultOfCount count) s = s) := by
  obtain ⟨zr, ci, ss⟩ := z
  obtain ⟨bt⟩ := b
  constructor
  · by_cases hd : d > 1 <;> by_cases hc : count > 0 <;> cases zr <;> cases ci <;> cases bt <;>
      simp [anyIssue, monitorVerdict, usbResultOfCount, issueMessageOf, specHeadline,
        kindMessage, hd, hc]
  · intro h
    simp [monitorTickEval, h]

/-- Witness for C2 at a clean probe combination: no violation is reported and
the tick does not move the initial state. -/
theorem C2_headline_priority_witness :
    anyIssue (monitorVerdict 1 ⟨true, true, false⟩ ⟨false⟩ (usbResultOfCount 0)) = false ∧
    monitorTickEval 1 ⟨true, true, false⟩ ⟨false⟩ (usbResultOfCount 0) initState = initState :=
  ⟨by decide,
   (C2_headline_priority 1 0 ⟨true, true, false⟩ ⟨false⟩ initState).2 (by decide)⟩

/-- C10: the 2-second monitor tick, the 1-second resolve tick and the
warning-timer-expired handler derive identical violation booleans from
identical probe results, and hence the same any-violation verdict. -/
theorem C10_verdict_agreement (d : Nat) (z : ZoomResult) (b : BluetoothResult)
    (u : UsbResult) :
    monitorVerdict d z b u = resolveVerdict d z b u ∧
    resolveVerdict d z b u = expiredVerdict d z b u ∧
    anyIssue (monitorVerdict d z b u) = anyIssue (expiredVerdict d z b u) :=
  ⟨rfl, rfl, rfl⟩

/-- C9 counterexample: in none of the three tick bodies are all four probes
issued before any is awaited — the second probe is invoked only after the
first has been awaited to completion. -/
theorem C9_concurrency_counterexample :
    allInvokedBeforeAwaits monitorTickTrace = false ∧
    allInvokedBeforeAwaits resolveTickTrace = false ∧
    allInvokedBeforeAwaits expiredRecheckTrace = false := by
  constructor
  · decide
  constructor <;> decide

/-- C9 amended: in all three tick bodies the probes run strictly sequentially
(display, then conference-app, then radio, then peripheral, each awaited to
completion before the next is issued), and evaluation happens only after all
four probes have completed. -/
theorem C9_sequential_probes :
    sequentialProbes monitorTickTrace = true ∧
    sequentialProbes resolveTickTrace = true ∧
    sequentialProbes expiredRecheckTrace = true := by
  constructor
  · decide
  constructor <;> decide

/-- C4: opening a warning is idempotent — with a warning already flagged, a
live warning window, or a terminated session, `showWarningWindow` changes
nothing; only from a non-warning, non-terminated state with no live window
does it set the flag, create the single surface, and arm the resolve
interval. -/
theorem C4_show_warning_idempotent (s : AppState) (msg : String) :
    ((s.isShowingWarning = true ∨ s.sessionTerminated = true ∨ s.warningWindows ≠ []) →
        showWarningWindow msg s = s) ∧
    (s.isShowingWarning = false → s.sessionTerminated = false → s.warningWindows = [] →
        showWarningWindow msg s =
          { s with isShowingWarning := true, resolveCheckInterval := true,
                   warningWindows := [msg] }) := by
  constructor
  · rintro (h | h | h) <;> simp [showWarningWindow, h]
  · intro h1 h2 h3
    simp [showWarningWindow, h1, h2, h3]

/-- Witness for C4: dropped on the warning-showing state, created from the
fresh initial state. -/
theorem C4_show_warning_idempotent_witness :
    showWarningWindow "x" warnState = warnState ∧
    showWarningWindow "x" initState =
      { initState with isShowingWarning := true, resolveCheckInterval := true,
                       warningWindows := ["x"] } :=
  ⟨(C4_show_warning_idempotent warnState "x").1 (Or.inl (by decide)),
   (C4_show_warning_idempotent initState "x").2 rfl rfl rfl⟩

/-- The initial state satisfies the invariant. -/
theorem inv_init : Inv initState :=
  ⟨fun h => absurd h (by decide), fun h => absurd rfl h,
   fun h => absurd h (by decide), by decide⟩

/-- `showWarningWindow` preserves the invariant when invoked from its only
call site, inside the live monitoring callback. -/
theorem inv_showWarningWindow {s : AppState} (hInv : Inv s)
    (hmon : s.monitoringInterval = true) (msg : String) :
    Inv (showWarningWindow msg s) := by
  obtain ⟨mw, ww, mon, res, shw, term, started⟩ := s
  obtain ⟨h1, h2, h3, h4⟩ := hInv
  have hc : mon = true := hmon
  cases term with
  | true =>
    have hmon2 : mon = false := (h3 rfl).2.2.2.1
    exact Bool.noConfusion (hmon2.symm.trans hc)
  | false =>
    cases shw with
    | true => exact ⟨h1, h2, h3, h4⟩
    | false =>
      cases ww with
      | cons w t => exact ⟨h1, h2, h3, h4⟩
      | nil =>
        exact ⟨fun _ => h1 hmon, fun _ => h1 hmon,
          fun h => Bool.noConfusion h, Nat.le_refl 1⟩

/-- Every fireable event preserves the invariant. -/
theorem inv_preserved {s : AppState} {ev : Event} (hInv : Inv s) (hc : canFire ev s) :
    Inv (applyEvent ev s) := by
  cases ev with
  | startRequested =>
    obtain ⟨mw, ww, mon, res, shw, term, started⟩ := s
    obtain ⟨h1, h2, h3, h4⟩ := hInv
    cases started with
    | true => exact ⟨h1, h2, h3, h4⟩
    | false =>
      have hterm : term = false := by
        cases term
        · rfl
        · exact Bool.noConfusion (h3 rfl).2.1
      subst hterm
      exact ⟨fun _ => rfl, fun _ => rfl, fun h => Bool.noConfusion h, h4⟩
  | monitorTick e =>
    obtain ⟨mw, ww, mon, res, shw, term, started⟩ := s
    obtain ⟨h1, h2, h3, h4⟩ := hInv
    have hc' : mon = true := hc
    have hterm : term = false := by
      cases term
      · rfl
      · exact Bool.noConfusion (((h3 rfl).2.2.2.1).symm.trans hc')
    subst hterm
    cases shw with
    | true => exact ⟨h1, h2, h3, h4⟩
    | false =>
      show Inv (monitorTickEval e.displayLen (checkZoomCamera e.zoomEnv)
        (checkBluetooth e.btEnv) (checkUsbDevices e.usbEnv)
        ⟨mw, ww, mon, res, false, false, started⟩)
      unfold monitorTickEval
      split
      · exact inv_showWarningWindow ⟨h1, h2, h3, h4⟩ hc' _
      · exact ⟨h1, h2, h3, h4⟩
  | resolveTick e =>
    obtain ⟨mw, ww, mon, res, shw, term, started⟩ := s
    obtain ⟨h1, h2, h3, h4⟩ := hInv
    have hc' : res = true := hc
    have hterm : term = false := by
      cases term
      · rfl
      · exact Bool.noConfusion (((h3 rfl).2.2.2.2.1).symm.trans hc')
    subst hterm
    cases shw with
    | false =>
      exact ⟨fun h => h1 h, fun h => h2 h, fun h => Bool.noConfusion h, h4⟩
    | true =>
      show Inv ((if anyIssue (resolveVerdict e.displayLen (checkZoomCamera e.zoomEnv)
          (checkBluetooth e.btEnv) (checkUsbDevices e.usbEnv)) = false then
            (closeWarningWindow ⟨mw, ww, mon, res, true, false, started⟩, 4)
          else (⟨mw, ww, mon, res, true, false, started⟩, 4) : AppState × Nat).1)
      split
      · exact ⟨fun h => h1 h, fun h => absurd rfl h,
          fun h => Bool.noConfusion h, Nat.zero_le 1⟩
      · exact ⟨h1, h2, h3, h4⟩
  | warningTimerExpired e =>
    obtain ⟨mw, ww, mon, res, shw, term, started⟩ := s
    obtain ⟨h1, h2, h3, h4⟩ := hInv
    have hc' : ww ≠ [] := hc
    have hstarted : started = true := h2 hc'
    subst hstarted
    have hterm : term = false := by
      cases term
      · rfl
      · exact absurd (h3 rfl).2.2.2.2.2.1 hc'
    subst hterm
    show Inv (warningTimerExpiredRun e ⟨mw, ww, mon, res, shw, false, true⟩)
    unfold warningTimerExpiredRun
    split
    · exact ⟨fun h => Bool.noConfusion h, fun h => absurd rfl h,
        fun _ => ⟨rfl, rfl, rfl, rfl, rfl, rfl, rfl, rfl, rfl, rfl, rfl⟩, Nat.zero_le 1⟩
    · exact ⟨fun h => h1 h, fun h => absurd rfl h,
        fun h => Bool.noConfusion h, Nat.zero_le 1⟩
  | showWarning msg =>
    exact inv_showWarningWindow hInv hc msg

/-- Every reachable state satisfies the invariant. -/
theorem inv_of_reachable {s : AppState} (h : Reachable s) : Inv s := by
  induction h with
  | init => exact inv_init
  | next _ hc ih => exact inv_preserved ih hc

/-- A fully locked terminated state is a fixed point of every event. -/
theorem locked_fixpoint {s : AppState} (hL : TerminatedLocked s) (ev : Event) :
    applyEvent ev s = s := by
  obtain ⟨mw, ww, mon, res, shw, term, started⟩ := s
  obtain ⟨mwscr, mwc, mwmi, mwma, mwmo, mwre, mwsfs, mwfs, mwk, mwaot⟩ := mw
  obtain ⟨hterm, hstart, hshw, hmon, hres, hww, hk, hsfs, hfs, haot, hscr⟩ := hL
  have g1 : term = true := hterm
  have g2 : started = true := hstart
  have g3 : shw = false := hshw
  have g4 : mon = false := hmon
  have g5 : res = false := hres
  have g6 : ww = [] := hww
  have g7 : mwk = false := hk
  have g8 : mwsfs = false := hsfs
  have g9 : mwfs = false := hfs
  have g10 : mwaot = some "floating" := haot
  have g11 : mwscr = Screen.terminated := hscr
  subst g1 g2 g3 g4 g5 g6 g7 g8 g9 g10 g11
  cases ev with
  | startRequested => rfl
  | monitorTick e => rfl
  | resolveTick e => rfl
  | warningTimerExpired e =>
    show warningTimerExpiredRun e _ = _
    unfold warningTimerExpiredRun
    split
    · rfl
    · rfl
  | showWarning msg => rfl

/-- The started example state is reachable. -/
theorem reach_started : Reachable startedState :=
  Reachable.next Reachable.init trivial

/-- The warning example state is reachable. -/
theorem reach_warn : Reachable warnState :=
  Reachable.next reach_started (show startedState.monitoringInterval = true by decide)

/-- The terminated example state is reachable. -/
theorem reach_term : Reachable termState :=
  Reachable.next reach_warn (show warnState.warningWindows ≠ [] by decide)

/-- C1: a reachable terminated state is a fixed point of the whole event
system — no sequence of subsequent events (monitor ticks, resolve ticks,
warning-timer expiries, start requests, warning requests) changes the state at
all, so sessionTerminated never becomes false and nothing re-activates the
session; in particular a start request is rejected without any state change. -/
theorem C1_terminated_is_terminal (s : AppState) (hs : Reachable s)
    (hterm : s.sessionTerminated = true) :
    (∀ evs : List Event, runEvents evs s = s ∧
        (runEvents evs s).sessionTerminated = true) ∧
    applyEvent Event.startRequested s = s := by
  have hL : TerminatedLocked s := (inv_of_reachable hs).2.2.1 hterm
  have hfix : ∀ evs : List Event, runEvents evs s = s := by
    intro evs
    induction evs with
    | nil => rfl
    | cons ev rest ih =>
      show runEvents rest (applyEvent ev s) = s
      rw [locked_fixpoint hL ev, ih]
  exact ⟨fun evs => ⟨hfix evs, by rw [hfix evs]; exact hterm⟩,
    locked_fixpoint hL Event.startRequested⟩

/-- Witness for C1 at the concrete reachable terminated state: a start request
leaves it unchanged, and an arbitrary follow-up sequence keeps it
terminated. -/
theorem C1_terminated_is_terminal_witness :
    termState.sessionTerminated = true ∧
    applyEvent Event.startRequested termState = termState ∧
    (runEvents [Event.monitorTick envGood, Event.startRequested] termState).sessionTerminated
      = true := by
  have h := C1_terminated_is_terminal termState reach_term (by decide)
  exact ⟨by decide, h.2, (h.1 [Event.monitorTick envGood, Event.startRequested]).2⟩

/-- C3: while the session is in Warning (warning showing, not terminated,
started, monitor interval live), the warning-timer-expired event decides the
outcome from a fresh probe evaluation: with a persisting violation the session
terminates (both intervals stopped, warning surface closed, terminated screen
rendered) and a subsequent start request is rejected without change; with no
violation the warning closes and the session is Active again (not terminated,
not warning, resolve interval stopped, monitor interval still live). -/
theorem C3_warning_expiry (s : AppState) (e : ProbeEnv)
    (h1 : s.sessionTerminated = false) (h2 : s.isShowingWarning = true)
    (h3 : s.proctorStarted = true) (h4 : s.monitoringInterval = true) :
    (anyIssue (expiredVerdictOfEnv e) = true →
        applyEvent (Event.warningTimerExpired e) s = terminateChessSession s ∧
        (terminateChessSession s).sessionTerminated = true ∧
        (terminateChessSession s).monitoringInterval = false ∧
        (terminateChessSession s).resolveCheckInterval = false ∧
        (terminateChessSession s).isShowingWarning = false ∧
        (terminateChessSession s).warningWindows = [] ∧
        (terminateChessSession s).mainWindow.screen = Screen.terminated ∧
        applyEvent Event.startRequested (terminateChessSession s) = terminateChessSession s) ∧
    (anyIssue (expiredVerdictOfEnv e) = false →
        applyEvent (Event.warningTimerExpired e) s = closeWarningWindow s ∧
        (closeWarningWindow s).sessionTerminated = false ∧
        (closeWarningWindow s).isShowingWarning = false ∧
        (closeWarningWindow s).resolveCheckInterval = false ∧
        (closeWarningWindow s).monitoringInterval = true ∧
        (closeWarningWindow s).warningWindows = []) := by
  obtain ⟨mw, ww, mon, res, shw, term, started⟩ := s
  have e1 : term = false := h1
  have e2 : shw = true := h2
  have e3 : started = true := h3
  have e4 : mon = true := h4
  subst e1 e2 e3 e4
  constructor
  · intro hA
    refine ⟨?_, rfl, rfl, rfl, rfl, rfl, rfl, rfl⟩
    show warningTimerExpiredRun e _ = _
    unfold warningTimerExpiredRun
    rw [if_pos hA]
  · intro hA
    refine ⟨?_, rfl, rfl, rfl, rfl, rfl⟩
    show warningTimerExpiredRun e _ = _
    unfold warningTimerExpiredRun
    rw [if_neg (by rw [hA]; exact Bool.false_ne_true)]

/-- Witness for C3 at the concrete warning state with a persisting violation:
the session terminates and a subsequent start request is rejected. -/
theorem C3_warning_expiry_witness :
    (applyEvent (Event.warningTimerExpired envBad) warnState).sessionTerminated = true ∧
    applyEvent Event.startRequested (applyEvent (Event.warningTimerExpired envBad) warnState)
      = applyEvent (Event.warningTimerExpired envBad) warnState := by
  have h := (C3_warning_expiry warnState envBad (by decide) (by decide) (by decide)
    (by decide)).1 (by decide)
  rw [h.1]
  exact ⟨h.2.1, h.2.2.2.2.2.2.2⟩

/-- C8: while a warning is showing or the session is terminated, a firing of
the 2-second monitor callback runs zero probes and returns the state
unchanged (so it raises nothing); and no reachable state ever has two warning
surfaces open. -/
theorem C8_monitor_noop_and_single_surface :
    (∀ (s : AppState) (e : ProbeEnv),
        s.sessionTerminated = true ∨ s.isShowingWarning = true →
        monitorTickRun e s = (s, 0)) ∧
    (∀ s : AppState, Reachable s → s.warningWindows.length ≤ 1) := by
  constructor
  · rintro s e (h | h) <;> simp [monitorTickRun, h]
  · intro s hr
    exact (inv_of_reachable hr).2.2.2

/-- Witness for C8: the tick is a zero-probe no-op on the concrete warning
state, and the reachable terminated state has at most one surface. -/
theorem C8_monitor_noop_witness :
    monitorTickRun envGood warnState = (warnState, 0) ∧
    termState.warningWindows.length ≤ 1 :=
  ⟨C8_monitor_noop_and_single_surface.1 warnState envGood (Or.inr (by decide)),
   C8_monitor_noop_and_single_surface.2 termState reach_term⟩

end ChessLock
